import Mathlib

/-!
Verification of the schedule-resolution core of the jarana time-and-attendance
backend.  Dates are modelled as integer epoch days (days since 1970-01-01, a
Thursday), clock times as minutes since midnight, and each Sequelize table as a
list of structure rows.  JavaScript `Date` internals (local time assumed UTC)
are modelled with the standard proleptic-Gregorian civil-calendar conversions.
On `Int`, `/` and `%` are euclidean division and remainder, which agree with
the JavaScript operations at every point where the source applies them
(non-negative operands, and `Math.round(n / 7) = (2 * n + 7) / 14` by
floor division).
-/

/-- JavaScript `Date.prototype.getDay` on an epoch day: 0 = Sunday .. 6 =
Saturday.  1970-01-01 was a Thursday (= 4). -/
def jsDow (z : Int) : Int := (z + 4) % 7

/-- Epoch day of the civil date `(y, m, d)` (proleptic Gregorian), modelling
the JavaScript `Date(year, month, day)` constructor at midnight. -/
def daysFromCivil (y m d : Int) : Int :=
  let yAdj := if m ≤ 2 then y - 1 else y
  let era := yAdj / 400
  let yoe := yAdj - era * 400
  let mp := (m + 9) % 12
  let doy := (153 * mp + 2) / 5 + d - 1
  let doe := yoe * 365 + yoe / 4 - yoe / 100 + doy
  era * 146097 + doe - 719468

/-- Calendar year of an epoch day, modelling `Date.prototype.getFullYear`. -/
def civilYear (z : Int) : Int :=
  let zs := z + 719468
  let era := zs / 146097
  let doe := zs - era * 146097
  let yoe := (doe - doe / 1460 + doe / 36524 - doe / 146096) / 365
  let y := yoe + era * 400
  let doy := doe - (365 * yoe + yoe / 4 - yoe / 100)
  let mp := (5 * doy + 2) / 153
  let m := mp + (if mp < 10 then 3 else -9)
  if m ≤ 2 then y + 1 else y

/-- The Thursday of the ISO week containing `z`: the in-place shift
`d.setDate(d.getDate() + 3 - (d.getDay() + 6) % 7)` performed by
`WeeklySchedule.getWeekNumber`. -/
def thursdayOf (z : Int) : Int := z + 3 - (jsDow z + 6) % 7

/-- `WeeklySchedule.getWeekNumber` (src/src/models/WeeklySchedule.js lines
105-111): shift the date to the Thursday of its week, then count weeks from
January 4 of that Thursday's year; `Math.round(n / 7)` becomes
`(2 * n + 7) / 14` under floor division. -/
def WeeklySchedule.getWeekNumber (z : Int) : Int :=
  let d := thursdayOf z
  let week1 := daysFromCivil (civilYear d) 1 4
  1 + (2 * ((d - week1) - 3 + (jsDow week1 + 6) % 7) + 7) / 14

/-- `WeeklySchedule.getWeekDates` (WeeklySchedule.js lines 113-131): the
(startDate, endDate) epoch days of the given week of the given year. -/
def WeeklySchedule.getWeekDates (year weekNumber : Int) : Int × Int :=
  let simple := daysFromCivil year 1 1 + (weekNumber - 1) * 7
  let dow := jsDow simple
  let start := if dow ≤ 4 then simple - dow + 1 else simple + 8 - dow
  (start, start + 6)

/-- The year that `getWeekNumber` itself uses as base of the week count: the
calendar year of the Thursday of `z`'s ISO week (the ISO week-based year). -/
def isoWeekYear (z : Int) : Int := civilYear (thursdayOf z)

/-- `WeeklySchedule.getWeeksInYear` (WeeklySchedule.js lines 141-145). -/
def WeeklySchedule.getWeeksInYear (year : Int) : Int :=
  let wn := WeeklySchedule.getWeekNumber (daysFromCivil year 12 31)
  if wn = 1 then 52 else wn

/-! ### Schedule entity rows (Sequelize models as list-of-row tables) -/

/-- A row of `daily_schedule_exceptions` (src/src/models/DailyScheduleException.js). -/
structure DailyExceptionRow where
  id : Nat
  employeeId : Nat
  date : Int
  exceptionType : String
  startTime : Option Nat
  endTime : Option Nat
  breakStartTime : Option Nat := none
  breakEndTime : Option Nat := none
  isWorkingDay : Bool := true
  reason : Option String := none
  notes : Option String := none
  isActive : Bool := true
  createdBy : Nat
deriving Repr, DecidableEq

/-- A row of `schedule_templates` (the fields the resolver and planner read). -/
structure ScheduleTemplateRow where
  id : Nat
  name : String
  isActive : Bool := true
deriving Repr, DecidableEq

/-- A row of `schedule_template_days` (src/unnamed/part_002, second model). -/
structure TemplateDayRow where
  id : Nat
  templateId : Nat
  dayOfWeek : Int
  startTime : Nat
  endTime : Nat
  breakStartTime : Option Nat := none
  breakEndTime : Option Nat := none
  isWorkingDay : Bool := true
  notes : Option String := none
deriving Repr, DecidableEq

/-- A row of `weekly_schedules` (src/src/models/WeeklySchedule.js). -/
structure WeeklyScheduleRow where
  id : Nat
  employeeId : Nat
  year : Int
  weekNumber : Int
  templateId : Option Nat
  startDate : Int
  endDate : Int
  isActive : Bool := true
  notes : Option String := none
  createdBy : Nat
deriving Repr, DecidableEq

/-- A row of `schedules` (the fixed per-weekday schedule, src/unnamed/part_001). -/
structure ScheduleRow where
  id : Nat
  employeeId : Nat
  dayOfWeek : Int
  startTime : Nat
  endTime : Nat
  breakStartTime : Option Nat := none
  breakEndTime : Option Nat := none
  isWorkingDay : Bool := true
  notes : Option String := none
deriving Repr, DecidableEq

/-- The tables read by the resolver and the bulk planner. -/
structure ScheduleDb where
  dailyExceptions : List DailyExceptionRow := []
  weeklySchedules : List WeeklyScheduleRow := []
  scheduleTemplates : List ScheduleTemplateRow := []
  templateDays : List TemplateDayRow := []
  schedules : List ScheduleRow := []
deriving Repr, DecidableEq

/-- The `data` payload of an effective schedule: the row(s) the winning source
contributed. -/
inductive EffectiveSource where
  | exception (e : DailyExceptionRow)
  | weekly (ws : WeeklyScheduleRow) (td : TemplateDayRow)
  | regular (s : ScheduleRow)
  | none
deriving Repr, DecidableEq

/-- The object returned by `WeeklyScheduleService.getEffectiveScheduleForDate`
(fields that only some branches set are `Option` with default `none`). -/
structure EffectiveSchedule where
  type : String
  source : String
  data : EffectiveSource
  isWorkingDay : Bool
  startTime : Option Nat
  endTime : Option Nat
  breakStartTime : Option Nat
  breakEndTime : Option Nat
  notes : Option String
  reason : Option String := none
  weekNotes : Option String := none
deriving Repr, DecidableEq

/-- The `findOne` predicate of resolver step 1: active daily exception for
(employeeId, date) (src/unnamed/part_006 lines 19-25). -/
def dailyExceptionMatch (employeeId : Nat) (date : Int) (e : DailyExceptionRow) : Bool :=
  e.employeeId == employeeId && e.date == date && e.isActive

/-- The `findOne` predicate of resolver step 2: weekly schedule for
(employeeId, year, weekNumber) — note: no `isActive` filter
(src/unnamed/part_006 lines 43-48). -/
def weeklyScheduleMatch (employeeId : Nat) (year weekNumber : Int) (w : WeeklyScheduleRow) : Bool :=
  w.employeeId == employeeId && w.year == year && w.weekNumber == weekNumber

/-- The included association `weeklySchedule.template` resolved through
`templateId`. -/
def templateOf (db : ScheduleDb) (w : WeeklyScheduleRow) : Option ScheduleTemplateRow :=
  w.templateId.bind fun tid => db.scheduleTemplates.find? fun t => t.id == tid

/-- The included association `template.templateDays` filtered by
`where: { dayOfWeek }` (`required: false`). -/
def templateDaysFor (db : ScheduleDb) (t : ScheduleTemplateRow) (dayOfWeek : Int) :
    List TemplateDayRow :=
  db.templateDays.filter fun d => d.templateId == t.id && d.dayOfWeek == dayOfWeek

/-- Resolver steps 3-4 (src/unnamed/part_006 lines 80-114): fixed `Schedule`
fallback, else the degraded `no_schedule` result. -/
def resolveRegularOrNone (db : ScheduleDb) (employeeId : Nat) (dayOfWeek : Int) :
    EffectiveSchedule :=
  match db.schedules.find? (fun s => s.employeeId == employeeId && s.dayOfWeek == dayOfWeek) with
  | some s =>
    { type := "regular_schedule", source := "regular_schedule", data := .regular s,
      isWorkingDay := s.isWorkingDay, startTime := some s.startTime, endTime := some s.endTime,
      breakStartTime := s.breakStartTime, breakEndTime := s.breakEndTime, notes := s.notes }
  | Option.none =>
    { type := "no_schedule", source := "none", data := .none, isWorkingDay := false,
      startTime := none, endTime := none, breakStartTime := none, breakEndTime := none,
      notes := some "No hay horario definido para esta fecha" }

/-- `WeeklyScheduleService.getEffectiveScheduleForDate` (src/unnamed/part_006
lines 11-120): strict priority daily exception > weekly template day > fixed
schedule > no schedule. -/
def WeeklyScheduleService.getEffectiveScheduleForDate (db : ScheduleDb) (employeeId : Nat)
    (date : Int) : EffectiveSchedule :=
  let year := civilYear date
  let weekNumber := WeeklySchedule.getWeekNumber date
  let dayOfWeek := jsDow date
  match db.dailyExceptions.find? (dailyExceptionMatch employeeId date) with
  | some e =>
    { type := "daily_exception", source := "daily_exception", data := .exception e,
      isWorkingDay := e.isWorkingDay, startTime := e.startTime, endTime := e.endTime,
      breakStartTime := e.breakStartTime, breakEndTime := e.breakEndTime,
      notes := e.notes, reason := e.reason }
  | Option.none =>
    match db.weeklySchedules.find? (weeklyScheduleMatch employeeId year weekNumber) with
    | some ws =>
      match templateOf db ws with
      | some t =>
        match templateDaysFor db t dayOfWeek with
        | td :: _ =>
          { type := "weekly_template", source := "weekly_schedule", data := .weekly ws td,
            isWorkingDay := td.isWorkingDay, startTime := some td.startTime,
            endTime := some td.endTime, breakStartTime := td.breakStartTime,
            breakEndTime := td.breakEndTime, notes := td.notes, weekNotes := ws.notes }
        | [] => resolveRegularOrNone db employeeId dayOfWeek
      | Option.none => resolveRegularOrNone db employeeId dayOfWeek
    | Option.none => resolveRegularOrNone db employeeId dayOfWeek

/-- Does resolver step 1 find an active daily exception? -/
def hasActiveDailyException (db : ScheduleDb) (employeeId : Nat) (date : Int) : Bool :=
  (db.dailyExceptions.find? (dailyExceptionMatch employeeId date)).isSome

/-- Does resolver step 2 find a weekly schedule whose template has a day for
`date`'s weekday?  (`weeklySchedule && weeklySchedule.template &&
weeklySchedule.template.templateDays.length > 0`, part_006 line 61.) -/
def hasWeeklyTemplateDay (db : ScheduleDb) (employeeId : Nat) (date : Int) : Bool :=
  ((db.weeklySchedules.find?
      (weeklyScheduleMatch employeeId (civilYear date) (WeeklySchedule.getWeekNumber date))).bind
    fun ws => (templateOf db ws).bind
      fun t => (templateDaysFor db t (jsDow date)).head?).isSome

/-- Does resolver step 3 find a fixed schedule for the weekday? -/
def hasRegularSchedule (db : ScheduleDb) (employeeId : Nat) (dayOfWeek : Int) : Bool :=
  (db.schedules.find? fun s => s.employeeId == employeeId && s.dayOfWeek == dayOfWeek).isSome

/-- The result record of the resolver's daily-exception branch. -/
def exceptionResult (e : DailyExceptionRow) : EffectiveSchedule :=
  { type := "daily_exception", source := "daily_exception", data := .exception e,
    isWorkingDay := e.isWorkingDay, startTime := e.startTime, endTime := e.endTime,
    breakStartTime := e.breakStartTime, breakEndTime := e.breakEndTime,
    notes := e.notes, reason := e.reason }

/-- The daily-exception row of the C2 counterexample: a `day_off` exception
with `isWorkingDay = false` that nevertheless stores times 09:00-17:00 (540
and 1020 minutes). -/
def c2row : DailyExceptionRow :=
  { id := 1, employeeId := 1, date := daysFromCivil 2025 3 10,
    exceptionType := "day_off", startTime := some 540, endTime := some 1020,
    isWorkingDay := false, createdBy := 1 }

/-- The concrete database of the C2 counterexample. -/
def c2db : ScheduleDb := { dailyExceptions := [c2row] }

/-- The inactive weekly assignment of the C10 witness: employee 1, year 2025,
ISO week 11, `isActive = false`, template 7. -/
def c10ws : WeeklyScheduleRow :=
  { id := 2, employeeId := 1, year := 2025, weekNumber := 11, templateId := some 7,
    startDate := daysFromCivil 2025 3 10, endDate := daysFromCivil 2025 3 16,
    isActive := false, createdBy := 1 }

/-- The template day of the C10 witness: Monday 10:00-18:00 of template 7. -/
def c10td : TemplateDayRow :=
  { id := 3, templateId := 7, dayOfWeek := 1, startTime := 600, endTime := 1080 }

/-- The database of the C10 witness: an inactive weekly assignment bound to an
existing template with a Monday day, plus a fixed Monday schedule that would
otherwise match. -/
def c10db : ScheduleDb :=
  { weeklySchedules := [c10ws],
    scheduleTemplates := [{ id := 7, name := "T7" }],
    templateDays := [c10td],
    schedules := [{ id := 4, employeeId := 1, dayOfWeek := 1, startTime := 540,
                    endTime := 1020 }] }

/-! ### Breaks: the `ScheduleBreak` model and the break service -/

/-- A row of `schedule_breaks` (src/unnamed/part_002 lines 4-121; the
parent reference and `createdBy` are carried separately where needed). -/
structure ScheduleBreakRow where
  name : String
  startTime : Nat
  endTime : Nat
  breakType : String := "rest"
  isPaid : Bool := true
  isRequired : Bool := false
  duration : Option Int := none
  description : Option String := none
  isFlexible : Bool := false
  flexibilityMinutes : Nat := 0
  sortOrder : Nat := 0
  isActive : Bool := true
deriving Repr, DecidableEq

/-- `ScheduleBreak.prototype.getDurationMinutes` (part_002 lines 137-143): the
stored `duration` when truthy (non-null and non-zero), else `endTime −
startTime` in minutes. -/
def ScheduleBreak.getDurationMinutes (b : ScheduleBreakRow) : Int :=
  match b.duration with
  | some d => if d = 0 then (b.endTime : Int) - b.startTime else d
  | none => (b.endTime : Int) - b.startTime

/-- `ScheduleBreak.prototype.hasFlexibilityConflict` (part_002 lines 153-174):
returns `false` outright when neither break is flexible; otherwise widens each
flexible break's window by its own `flexibilityMinutes` on both ends and tests
intersection. -/
def ScheduleBreak.hasFlexibilityConflict (a b : ScheduleBreakRow) : Bool :=
  if !a.isFlexible && !b.isFlexible then false
  else
    let thisStart : Int := (a.startTime : Int) -
      (if a.isFlexible then (a.flexibilityMinutes : Int) else 0)
    let thisEnd : Int := (a.endTime : Int) +
      (if a.isFlexible then (a.flexibilityMinutes : Int) else 0)
    let otherStart : Int := (b.startTime : Int) -
      (if b.isFlexible then (b.flexibilityMinutes : Int) else 0)
    let otherEnd : Int := (b.endTime : Int) +
      (if b.isFlexible then (b.flexibilityMinutes : Int) else 0)
    decide (thisStart < otherEnd) && decide (thisEnd > otherStart)

/-- Modelled from the spec (§4.3 `hasOverlap`): widen each break's window by
its own `flexibilityMinutes` on both ends exactly when that break is flexible,
then report a conflict iff the (possibly widened) windows intersect
(`aStart < bEnd && aEnd > bStart`) — with no further condition.  Used to
compare the claimed contract against `hasFlexibilityConflict`. -/
def specWidenedOverlap (a b : ScheduleBreakRow) : Bool :=
  let aS : Int := (a.startTime : Int) -
    (if a.isFlexible then (a.flexibilityMinutes : Int) else 0)
  let aE : Int := (a.endTime : Int) +
    (if a.isFlexible then (a.flexibilityMinutes : Int) else 0)
  let bS : Int := (b.startTime : Int) -
    (if b.isFlexible then (b.flexibilityMinutes : Int) else 0)
  let bE : Int := (b.endTime : Int) +
    (if b.isFlexible then (b.flexibilityMinutes : Int) else 0)
  decide (aS < bE) && decide (aE > bS)

/-- Lunch 13:00-14:00 (scenario D of the spec), not flexible. -/
def lunchBreak : ScheduleBreakRow := { name := "Lunch", startTime := 780, endTime := 840 }

/-- Coffee 13:30-13:45 (scenario D of the spec), not flexible. -/
def coffeeBreak : ScheduleBreakRow := { name := "Coffee", startTime := 810, endTime := 825 }

/-- A break before work hours (08:00-08:30 against 09:00-17:00), firing the
`outside_work_hours` check. -/
def earlyBreak : ScheduleBreakRow := { name := "Early", startTime := 480, endTime := 510 }

/-- A break whose start is after its end (14:00-13:00), firing the
`invalid_time_range` check. -/
def backwardsBreak : ScheduleBreakRow :=
  { name := "Backwards", startTime := 840, endTime := 780 }

/-- `Math.round` on an exact rational: round half toward positive infinity. -/
def jsRound (q : Rat) : Int := Rat.floor (q + 1 / 2)

/-- `Math.round((minutes / 60) * 100) / 100` — the two-decimal hour fields. -/
def minutesToHours (m : Int) : Rat := (jsRound ((m : Rat) / 60 * 100) : Rat) / 100

/-- The object returned by `ScheduleBreak.calculateTotalBreakTime`. -/
structure BreakTimeStats where
  total : Int
  paid : Int
  unpaid : Int
  totalHours : Rat
  paidHours : Rat
  unpaidHours : Rat
deriving Repr, DecidableEq

/-- `ScheduleBreak.calculateTotalBreakTime` (part_002 lines 289-314): sums
each break's duration into total/paid/unpaid minutes (the `includeUnpaid`
parameter is accepted but never read, as in the source). -/
def ScheduleBreak.calculateTotalBreakTime (breaks : List ScheduleBreakRow)
    (includeUnpaid : Bool := true) : BreakTimeStats :=
  let acc := breaks.foldl
    (fun (acc : Int × Int × Int) b =>
      let duration := ScheduleBreak.getDurationMinutes b
      (acc.1 + duration,
       (if b.isPaid then acc.2.1 + duration else acc.2.1),
       (if b.isPaid then acc.2.2 else acc.2.2 + duration)))
    (0, 0, 0)
  { total := acc.1, paid := acc.2.1, unpaid := acc.2.2,
    totalHours := minutesToHours acc.1, paidHours := minutesToHours acc.2.1,
    unpaidHours := minutesToHours acc.2.2 }

/-- The object returned by `ScheduleBreakService.calculateEffectiveWorkTime`. -/
structure EffectiveWorkTime where
  totalWorkMinutes : Int
  totalBreakMinutes : Int
  paidBreakMinutes : Int
  unpaidBreakMinutes : Int
  effectiveWorkMinutes : Int
  effectivePaidMinutes : Int
  totalHours : Rat
  effectiveHours : Rat
  breakHours : Rat
  paidBreakHours : Rat
  unpaidBreakHours : Rat
deriving Repr, DecidableEq

/-- `ScheduleBreakService.calculateEffectiveWorkTime`
(src/src/services/scheduleBreakService.js lines 112-134): null when either
work-time bound is absent, else gross minutes and gross minus unpaid break
minutes, with no clamping. -/
def ScheduleBreakService.calculateEffectiveWorkTime (workStartTime workEndTime : Option Nat)
    (breaks : List ScheduleBreakRow) : Option EffectiveWorkTime :=
  match workStartTime, workEndTime with
  | some ws, some we =>
    let totalWorkMinutes : Int := (we : Int) - ws
    let breakStats := ScheduleBreak.calculateTotalBreakTime breaks
    some { totalWorkMinutes := totalWorkMinutes,
           totalBreakMinutes := breakStats.total,
           paidBreakMinutes := breakStats.paid,
           unpaidBreakMinutes := breakStats.unpaid,
           effectiveWorkMinutes := totalWorkMinutes - breakStats.unpaid,
           effectivePaidMinutes := totalWorkMinutes - breakStats.unpaid,
           totalHours := minutesToHours totalWorkMinutes,
           effectiveHours := minutesToHours (totalWorkMinutes - breakStats.unpaid),
           breakHours := breakStats.totalHours,
           paidBreakHours := breakStats.paidHours,
           unpaidBreakHours := breakStats.unpaidHours }
  | _, _ => none

/-- A two-hour unpaid break, longer than the one-hour work window it is
checked against in the C5 negative-minutes instance. -/
def longUnpaidBreak : ScheduleBreakRow :=
  { name := "Long unpaid", startTime := 480, endTime := 600, isPaid := false }

/-- Render minutes since midnight as the "HH:MM" string the service
interpolates into error messages. -/
def fmtTime (m : Nat) : String :=
  (if m / 60 < 10 then "0" else "") ++ toString (m / 60) ++ ":" ++
  (if m % 60 < 10 then "0" else "") ++ toString (m % 60)

/-- An entry of the `errors` array built by
`ScheduleBreak.validateBreaksForParent` (fields that only some error kinds set
are `Option` with default `none`). -/
structure BreakValidationErr where
  breakIndex : Nat
  conflictIndex : Option Nat := none
  type : String
  message : String
  breakName : String
  conflictName : Option String := none
deriving Repr, DecidableEq

/-- The `outside_work_hours` error entry (part_002 lines 244-251). -/
def outsideErr (i : Nat) (b : ScheduleBreakRow) (ws we : Nat) : BreakValidationErr :=
  { breakIndex := i, type := "outside_work_hours",
    message := "Break \"" ++ b.name ++ "\" is outside work hours (" ++ fmtTime ws ++
      " - " ++ fmtTime we ++ ")",
    breakName := b.name }

/-- The `invalid_time_range` error entry (part_002 lines 253-261). -/
def invalidRangeErr (i : Nat) (b : ScheduleBreakRow) : BreakValidationErr :=
  { breakIndex := i, type := "invalid_time_range",
    message := "Break \"" ++ b.name ++ "\" start time must be before end time",
    breakName := b.name }

/-- The `break_overlap` error entry (part_002 lines 270-278): reports both
indices and both names. -/
def overlapErr (i j : Nat) (b o : ScheduleBreakRow) : BreakValidationErr :=
  { breakIndex := i, conflictIndex := some j, type := "break_overlap",
    message := "Break \"" ++ b.name ++ "\" overlaps with \"" ++ o.name ++ "\"",
    breakName := b.name, conflictName := some o.name }

/-- The raw window-intersection test of the validator's inner loop
(`breakStart < otherEnd && breakEnd > otherStart`, part_002 line 270). -/
def rawOverlap (b o : ScheduleBreakRow) : Bool :=
  decide (b.startTime < o.endTime) && decide (b.endTime > o.startTime)

/-- The validator's inner `for (let j = i + 1; ...)` loop: overlap errors of
break `b` (at index `i`) against the later breaks, `j0` being the index of the
first of them. -/
def overlapErrs (i : Nat) (b : ScheduleBreakRow) :
    Nat → List ScheduleBreakRow → List BreakValidationErr
  | _, [] => []
  | j, o :: rest =>
    (if rawOverlap b o then [overlapErr i j b o] else []) ++ overlapErrs i b (j + 1) rest

/-- The validator's outer `for (let i = 0; ...)` loop: per-break containment
and range checks plus the pairwise overlap scan, accumulating all errors. -/
def validateAux (workStart workEnd : Nat) :
    Nat → List ScheduleBreakRow → List BreakValidationErr
  | _, [] => []
  | i, b :: rest =>
    (if b.startTime < workStart ∨ b.endTime > workEnd
      then [outsideErr i b workStart workEnd] else []) ++
    (if b.startTime ≥ b.endTime then [invalidRangeErr i b] else []) ++
    overlapErrs i b (i + 1) rest ++
    validateAux workStart workEnd (i + 1) rest

/-- The structured result of `validateBreaksForParent`. -/
structure BreakValidation where
  isValid : Bool
  errors : List BreakValidationErr
deriving Repr, DecidableEq

/-- `ScheduleBreak.validateBreaksForParent` (part_002 lines 232-287):
accumulates every error and returns `{isValid, errors}`; `parentType` and
`parentId` are accepted but never read, as in the source. -/
def ScheduleBreak.validateBreaksForParent (parentType parentId : String)
    (breaks : List ScheduleBreakRow) (workStartTime workEndTime : Nat) : BreakValidation :=
  let errors := validateAux workStartTime workEndTime 0 breaks
  { isValid := errors.length == 0, errors := errors }

/-! ### Bulk application of template breaks (one shared transaction) -/

/-- A persisted `schedule_breaks` row together with its polymorphic parent
reference and creator. -/
structure StoredBreak where
  parentType : String
  parentId : Nat
  row : ScheduleBreakRow
  createdBy : Nat
deriving Repr, DecidableEq

/-- The tables touched by `applyTemplateBreaksToSchedules`: the break rows and
the ids of existing `Schedule` rows. -/
structure BreaksDb where
  rows : List StoredBreak := []
  schedules : List Nat := []
deriving Repr, DecidableEq

/-- The `ORDER BY sort_order ASC, start_time ASC` of `findByParent`:
lexicographic key comparison. -/
def breakLe (a b : StoredBreak) : Bool :=
  a.row.sortOrder < b.row.sortOrder ||
    (a.row.sortOrder == b.row.sortOrder && a.row.startTime ≤ b.row.startTime)

/-- Stable insertion for `sortBreaks`. -/
def insertSorted (x : StoredBreak) : List StoredBreak → List StoredBreak
  | [] => [x]
  | y :: ys => if breakLe y x then y :: insertSorted x ys else x :: y :: ys

/-- Stable insertion sort by `breakLe`. -/
def sortBreaks : List StoredBreak → List StoredBreak
  | [] => []
  | x :: xs => insertSorted x (sortBreaks xs)

/-- `ScheduleBreak.findByParent` (part_002 lines 221-230): the active rows of
one parent, ordered by `(sort_order, start_time)`. -/
def ScheduleBreak.findByParent (rows : List StoredBreak) (pt : String) (pid : Nat) :
    List StoredBreak :=
  sortBreaks (rows.filter fun r => r.parentType == pt && r.parentId == pid && r.row.isActive)

/-- The indexed create loop of `ScheduleBreak.bulkCreateForParent` (part_002
lines 348-365): `sortOrder: breaks[i].sortOrder || i + 1` (0 is falsy). -/
def bulkCreateAux (pt : String) (pid : Nat) (createdBy : Nat) :
    Nat → List ScheduleBreakRow → List StoredBreak
  | _, [] => []
  | i, b :: rest =>
    { parentType := pt, parentId := pid, createdBy := createdBy,
      row := { b with sortOrder := if b.sortOrder = 0 then i + 1 else b.sortOrder } } ::
    bulkCreateAux pt pid createdBy (i + 1) rest

/-- `ScheduleBreak.bulkCreateForParent` starting at index 0. -/
def ScheduleBreak.bulkCreateForParent (pt : String) (pid : Nat)
    (breaks : List ScheduleBreakRow) (createdBy : Nat) : List StoredBreak :=
  bulkCreateAux pt pid createdBy 0 breaks

/-- `ScheduleBreak.updateBreaksForParent` (part_002 lines 367-376) executed
inside the caller's transaction: destroy every row of the parent, then bulk
create the new set.  `createThrows` injects the database throwing at the first
`create` call (the error the service catches per schedule); the destroy has
already been executed in the transaction when that happens.  Returns the
transaction's pending rows and whether the call succeeded. -/
def updateBreaksForParentTx (pending : List StoredBreak) (pt : String) (pid : Nat)
    (breaks : List ScheduleBreakRow) (createdBy : Nat) (createThrows : Bool) :
    List StoredBreak × Bool :=
  let destroyed := pending.filter fun r => !(r.parentType == pt && r.parentId == pid)
  if createThrows then (destroyed, false)
  else (destroyed ++ ScheduleBreak.bulkCreateForParent pt pid breaks createdBy, true)

/-- One entry of the `results` array of `applyTemplateBreaksToSchedules`. -/
structure ApplyEntry where
  scheduleId : Nat
  success : Bool
  error : Option String := none
  breaksApplied : Option Nat := none
deriving Repr, DecidableEq

/-- The `summary` object of `applyTemplateBreaksToSchedules`. -/
structure ApplySummary where
  total : Nat
  successful : Nat
  failed : Nat
deriving Repr, DecidableEq

/-- The return value of `applyTemplateBreaksToSchedules`. -/
structure ApplyReport where
  success : Bool
  message : String
  results : List ApplyEntry
  summary : Option ApplySummary := none
deriving Repr, DecidableEq

/-- The field copy of service lines 171-182: a template break prepared for a
target schedule (`duration` and `isActive` are not copied and take their
defaults). -/
def templateBreakCopy (tb : StoredBreak) : ScheduleBreakRow :=
  { name := tb.row.name, startTime := tb.row.startTime, endTime := tb.row.endTime,
    breakType := tb.row.breakType, isPaid := tb.row.isPaid, isRequired := tb.row.isRequired,
    description := tb.row.description, isFlexible := tb.row.isFlexible,
    flexibilityMinutes := tb.row.flexibilityMinutes, sortOrder := tb.row.sortOrder }

/-- The `results` entry for a schedule id absent from the table (service lines
161-168). -/
def notFoundEntry (sid : Nat) : ApplyEntry :=
  { scheduleId := sid, success := false, error := some "Schedule not found" }

/-- The `results` entry for a schedule whose break replacement threw (service
lines 199-205). -/
def createFailedEntry (sid : Nat) : ApplyEntry :=
  { scheduleId := sid, success := false, error := some "create failed" }

/-- The `results` entry for a successfully replaced schedule (service lines
193-197). -/
def successEntry (sid n : Nat) : ApplyEntry :=
  { scheduleId := sid, success := true, breaksApplied := some n }

/-- The body of the service's `for (const scheduleId of scheduleIds)` loop
(lines 157-206), threading the shared transaction's pending rows and the
results array: a missing schedule or a caught create error appends a failure
entry and the loop continues. -/
def applyStep (db : BreaksDb) (createFails : Nat → Bool)
    (templateBreaks : List StoredBreak) (createdBy : Nat)
    (acc : List StoredBreak × List ApplyEntry) (sid : Nat) :
    List StoredBreak × List ApplyEntry :=
  if db.schedules.contains sid then
    let breaksToCreate := templateBreaks.map templateBreakCopy
    let res := updateBreaksForParentTx acc.1 "schedule" sid breaksToCreate createdBy
      (createFails sid)
    if res.2 then (res.1, acc.2 ++ [successEntry sid breaksToCreate.length])
    else (res.1, acc.2 ++ [createFailedEntry sid])
  else
    (acc.1, acc.2 ++ [notFoundEntry sid])

/-- `ScheduleBreakService.applyTemplateBreaksToSchedules`
(src/src/services/scheduleBreakService.js lines 139-228).  One transaction is
created before the loop and committed after it: every per-schedule write goes
to the shared pending rows, which replace the table only at the final commit;
the empty-template early return rolls the (empty) transaction back, leaving
the table unchanged.  `createFails` injects, per schedule id, the caught
create error of lines 199-205. -/
def ScheduleBreakService.applyTemplateBreaksToSchedules (createFails : Nat → Bool)
    (db : BreaksDb) (templateDayId : Nat) (scheduleIds : List Nat) (createdBy : Nat) :
    BreaksDb × ApplyReport :=
  let templateBreaks := ScheduleBreak.findByParent db.rows "template_day" templateDayId
  if templateBreaks.isEmpty then
    (db, { success := true, message := "No breaks found in template", results := [] })
  else
    let out := scheduleIds.foldl (applyStep db createFails templateBreaks createdBy)
      (db.rows, [])
    let successCount := (out.2.filter fun r => r.success).length
    ({ db with rows := out.1 },
     { success := true,
       message := "Template breaks applied to " ++ toString successCount ++ "/" ++
         toString scheduleIds.length ++ " schedules",
       results := out.2,
       summary := some { total := scheduleIds.length, successful := successCount,
                         failed := scheduleIds.length - successCount } })

/-- The committed break rows of one target schedule. -/
def rowsFor (sid : Nat) (rows : List StoredBreak) : List StoredBreak :=
  rows.filter fun r => r.parentType == "schedule" && r.parentId == sid

/-- The `results` entry produced for one schedule id, as a function of whether
the schedule exists and whether its create step throws. -/
def applyEntryFor (db : BreaksDb) (createFails : Nat → Bool) (n : Nat) (sid : Nat) :
    ApplyEntry :=
  if db.schedules.contains sid then
    (if createFails sid then createFailedEntry sid else successEntry sid n)
  else notFoundEntry sid

/-- The template-day break of the C6 scenario (template day 7). -/
def c6tpl : StoredBreak :=
  { parentType := "template_day", parentId := 7,
    row := { name := "Desayuno", startTime := 600, endTime := 615 }, createdBy := 9 }

/-- The pre-existing break of schedule 1. -/
def c6old1 : StoredBreak :=
  { parentType := "schedule", parentId := 1,
    row := { name := "Old1", startTime := 700, endTime := 710 }, createdBy := 9 }

/-- The pre-existing break of schedule 2. -/
def c6old2 : StoredBreak :=
  { parentType := "schedule", parentId := 2,
    row := { name := "Old2", startTime := 700, endTime := 710 }, createdBy := 9 }

/-- The break tables of the C6 scenario: one template break and one existing
break for each of the two target schedules. -/
def c6db : BreaksDb := { rows := [c6tpl, c6old1, c6old2], schedules := [1, 2] }

/-- The fault of the C6 scenario: the create step throws for schedule 2 only. -/
def c6fails : Nat → Bool := fun sid => sid == 2

/-! ### Bulk year planner (`planifyYearWithTemplate`) -/

/-- The options object of `planifyYearWithTemplate` (part_006 lines 153-158). -/
structure PlanOptions where
  skipExistingWeeks : Bool := false
  specificWeeks : Option (List Int) := none
  excludeWeeks : List Int := []
  notes : Option String := none
deriving Repr, DecidableEq

/-- One entry of the planner's `results` array (part_006 lines 206-211). -/
structure WeekResult where
  weekNumber : Int
  action : String
  startDate : Int
  endDate : Int
deriving Repr, DecidableEq

/-- The planner's `summary` object (part_006 lines 227-232). -/
structure PlanSummary where
  totalWeeksProcessed : Nat
  successful : Nat
  failed : Nat
  skipped : Nat
deriving Repr, DecidableEq

/-- The planner's return value (part_006 lines 221-235). -/
structure PlanResult where
  success : Bool := true
  templateId : Nat
  templateName : String
  summary : PlanSummary
  results : List WeekResult
  errors : List String := []
deriving Repr, DecidableEq

/-- The value object passed to `WeeklySchedule.upsert` (part_006 lines
195-204). -/
structure WeeklyUpsertValues where
  employeeId : Nat
  year : Int
  weekNumber : Int
  templateId : Nat
  startDate : Int
  endDate : Int
  notes : Option String
  createdBy : Nat
deriving Repr, DecidableEq

/-- Does a stored row carry the upsert's composite key (the unique index
(employee_id, year, week_number) of WeeklySchedule.js lines 78-82)? -/
def weeklyKeyMatch (v : WeeklyUpsertValues) (r : WeeklyScheduleRow) : Bool :=
  r.employeeId == v.employeeId && r.year == v.year && r.weekNumber == v.weekNumber

/-- The update half of the upsert: overwrite the supplied fields, keep the
others (`id`, `isActive`). -/
def applyValues (r : WeeklyScheduleRow) (v : WeeklyUpsertValues) : WeeklyScheduleRow :=
  { r with
    employeeId := v.employeeId, year := v.year, weekNumber := v.weekNumber,
    templateId := some v.templateId, startDate := v.startDate, endDate := v.endDate,
    notes := v.notes, createdBy := v.createdBy }

/-- The insert half of the upsert (the fresh random UUID is modelled as id 0). -/
def newRowFromValues (v : WeeklyUpsertValues) : WeeklyScheduleRow :=
  { id := 0, employeeId := v.employeeId, year := v.year, weekNumber := v.weekNumber,
    templateId := some v.templateId, startDate := v.startDate, endDate := v.endDate,
    notes := v.notes, createdBy := v.createdBy }

/-- `WeeklySchedule.upsert` keyed by the unique composite index: update every
row carrying the key (there is at most one under the index), else insert; the
boolean is Sequelize's `created` flag. -/
def WeeklySchedule.upsert (rows : List WeeklyScheduleRow) (v : WeeklyUpsertValues) :
    List WeeklyScheduleRow × Bool :=
  if rows.any (weeklyKeyMatch v) then
    (rows.map fun r => if weeklyKeyMatch v r then applyValues r v else r, false)
  else (rows ++ [newRowFromValues v], true)

/-- The upsert values built for one week of the planning loop (part_006 lines
191-204): week dates from `getWeekDates`, notes defaulting to the
template-name message. -/
def planValues (templateName : String) (emp : Nat) (yr : Int) (tid cb : Nat)
    (opts : PlanOptions) (w : Int) : WeeklyUpsertValues :=
  { employeeId := emp, year := yr, weekNumber := w, templateId := tid,
    startDate := (WeeklySchedule.getWeekDates yr w).1,
    endDate := (WeeklySchedule.getWeekDates yr w).2,
    notes := some (opts.notes.getD ("Planificación anual con plantilla: " ++ templateName)),
    createdBy := cb }

/-- The body of the planner's `for (const weekNumber of weeksToProcess)` loop
(part_006 lines 174-219): skip excluded weeks, optionally skip existing weeks,
else upsert and record `created`/`updated`. -/
def planStep (templateName : String) (emp : Nat) (yr : Int) (tid cb : Nat)
    (opts : PlanOptions) (acc : List WeeklyScheduleRow × List WeekResult) (w : Int) :
    List WeeklyScheduleRow × List WeekResult :=
  if opts.excludeWeeks.contains w then acc
  else if opts.skipExistingWeeks &&
      acc.1.any (fun r => r.employeeId == emp && r.year == yr && r.weekNumber == w) then acc
  else
    let v := planValues templateName emp yr tid cb opts w
    let res := WeeklySchedule.upsert acc.1 v
    (res.1,
     acc.2 ++ [⟨w, if res.2 then "created" else "updated", v.startDate, v.endDate⟩])

/-- The planner body once the template has been found and validated: iterate
the target weeks, upsert each, and assemble the report. -/
def planifyCore (db : ScheduleDb) (template : ScheduleTemplateRow) (emp : Nat) (yr : Int)
    (tid cb : Nat) (opts : PlanOptions) : ScheduleDb × PlanResult :=
  let totalWeeks := WeeklySchedule.getWeeksInYear yr
  let weeksToProcess := opts.specificWeeks.getD
    ((List.range totalWeeks.toNat).map fun i => (i : Int) + 1)
  let out := weeksToProcess.foldl (planStep template.name emp yr tid cb opts)
    (db.weeklySchedules, [])
  ({ db with weeklySchedules := out.1 },
   { templateId := template.id, templateName := template.name,
     summary := { totalWeeksProcessed := weeksToProcess.length,
                  successful := out.2.length, failed := 0,
                  skipped := weeksToProcess.length - out.2.length },
     results := out.2 })

/-- `WeeklyScheduleService.planifyYearWithTemplate` (part_006 lines 151-241):
fails when the template is missing or inactive, else runs the planning loop.
The model's upsert cannot throw, so the per-week `errors` list is empty. -/
def WeeklyScheduleService.planifyYearWithTemplate (db : ScheduleDb) (emp : Nat) (yr : Int)
    (tid cb : Nat) (opts : PlanOptions) : Except String (ScheduleDb × PlanResult) :=
  match db.scheduleTemplates.find? (fun t => t.id == tid && t.isActive) with
  | some template => .ok (planifyCore db template emp yr tid cb opts)
  | none => .error "Template not found or inactive"

/-- The rows already carry the upsert's payload at its key: the key is present
and every row carrying it is unchanged by the update. -/
def keyFixed (rows : List WeeklyScheduleRow) (v : WeeklyUpsertValues) : Prop :=
  rows.any (weeklyKeyMatch v) = true ∧
  ∀ r ∈ rows, weeklyKeyMatch v r = true → applyValues r v = r

/-- The database of the C9 witness: one active template, no assignments yet. -/
def c9db : ScheduleDb := { scheduleTemplates := [{ id := 1, name := "T" }] }

/-- The options of the C9 witness: plan weeks 1 and 2 of 2025 only, with
`skipExistingWeeks` at its default `false`. -/
def c9opts : PlanOptions := { specificWeeks := some [1, 2] }

/-! ### Theorems -/

theorem daysFromCivil_jan (y d : Int) :
    daysFromCivil y 1 d = daysFromCivil y 1 1 + (d - 1) := by
  simp only [daysFromCivil]
  norm_num
  omega

example : civilYear (daysFromCivil 2027 1 1) = 2027 := by decide

example : jsDow (daysFromCivil 2027 1 1) = 5 := by decide

example : jsDow (daysFromCivil 2025 3 10) = 1 := by decide

example : WeeklySchedule.getWeekNumber (daysFromCivil 2025 3 10) = 11 := by decide

example : WeeklySchedule.getWeekNumber (daysFromCivil 2027 1 1) = 53 := by decide

example : WeeklySchedule.getWeeksInYear 2025 = 52 := by decide

example : WeeklySchedule.getWeeksInYear 2026 = 53 := by decide

example : WeeklySchedule.getWeekDates 2025 11 =
    (daysFromCivil 2025 3 10, daysFromCivil 2025 3 16) := by decide

/-- C3 counterexample: for d = 2027-01-01 (a Friday, ISO week 53 of 2026),
`weekDates(year(d), weekNumber(d))` with `year(d)` the calendar year 2027
yields the range 2028-01-03 .. 2028-01-09, which does not contain d — the
claimed round-trip through the calendar year fails. -/
theorem weekDates_roundTrip_calendarYear_cex :
    ¬ ((WeeklySchedule.getWeekDates (civilYear (daysFromCivil 2027 1 1))
          (WeeklySchedule.getWeekNumber (daysFromCivil 2027 1 1))).1
        ≤ daysFromCivil 2027 1 1 ∧
       daysFromCivil 2027 1 1 ≤
        (WeeklySchedule.getWeekDates (civilYear (daysFromCivil 2027 1 1))
          (WeeklySchedule.getWeekNumber (daysFromCivil 2027 1 1))).2) := by
  decide

/-- C3 (amended): for every calendar date d, d lies within the inclusive
[startDate, endDate] range of `weekDates(y, weekNumber(d))` where y is the ISO
week-based year of d — the calendar year of the Thursday of d's week, which is
the very year `getWeekNumber` uses internally; it equals d's calendar year
except for boundary days whose ISO week belongs to the adjacent year. -/
theorem weekDates_weekNumber_roundTrip_isoYear (z : Int) :
    (WeeklySchedule.getWeekDates (isoWeekYear z) (WeeklySchedule.getWeekNumber z)).1 ≤ z ∧
    z ≤ (WeeklySchedule.getWeekDates (isoWeekYear z) (WeeklySchedule.getWeekNumber z)).2 := by
  simp only [WeeklySchedule.getWeekDates, WeeklySchedule.getWeekNumber, isoWeekYear,
    thursdayOf, jsDow]
  generalize civilYear (z + 3 - ((z + 4) % 7 + 6) % 7) = Y
  rw [daysFromCivil_jan Y 4]
  generalize daysFromCivil Y 1 1 = W
  constructor <;> (split <;> omega)

theorem resolve_exception_eq (db : ScheduleDb) (emp : Nat) (date : Int) (e : DailyExceptionRow)
    (h : db.dailyExceptions.find? (dailyExceptionMatch emp date) = some e) :
    WeeklyScheduleService.getEffectiveScheduleForDate db emp date = exceptionResult e := by
  simp [WeeklyScheduleService.getEffectiveScheduleForDate, exceptionResult, h]

theorem resolve_weekly_eq (db : ScheduleDb) (emp : Nat) (date : Int) (ws : WeeklyScheduleRow)
    (t : ScheduleTemplateRow) (td : TemplateDayRow) (rest : List TemplateDayRow)
    (hde : db.dailyExceptions.find? (dailyExceptionMatch emp date) = none)
    (hws : db.weeklySchedules.find?
      (weeklyScheduleMatch emp (civilYear date) (WeeklySchedule.getWeekNumber date)) = some ws)
    (ht : templateOf db ws = some t)
    (hdays : templateDaysFor db t (jsDow date) = td :: rest) :
    WeeklyScheduleService.getEffectiveScheduleForDate db emp date =
      { type := "weekly_template", source := "weekly_schedule", data := .weekly ws td,
        isWorkingDay := td.isWorkingDay, startTime := some td.startTime,
        endTime := some td.endTime, breakStartTime := td.breakStartTime,
        breakEndTime := td.breakEndTime, notes := td.notes, weekNotes := ws.notes } := by
  simp [WeeklyScheduleService.getEffectiveScheduleForDate, hde, hws, ht, hdays]

theorem resolve_fallback_eq (db : ScheduleDb) (emp : Nat) (date : Int)
    (hde : db.dailyExceptions.find? (dailyExceptionMatch emp date) = none)
    (hw : hasWeeklyTemplateDay db emp date = false) :
    WeeklyScheduleService.getEffectiveScheduleForDate db emp date =
      resolveRegularOrNone db emp (jsDow date) := by
  simp only [hasWeeklyTemplateDay] at hw
  simp only [WeeklyScheduleService.getEffectiveScheduleForDate, hde]
  split
  · rename_i ws hws
    split
    · rename_i t ht
      split
      · rename_i td rest hdays
        simp [hws, ht, hdays] at hw
      · rfl
    · rfl
  · rfl

/-- Unfolding of `hasWeeklyTemplateDay = true` into its three successive
lookups. -/
theorem hasWeeklyTemplateDay_iff (db : ScheduleDb) (emp : Nat) (date : Int) :
    hasWeeklyTemplateDay db emp date = true ↔
      ∃ ws t td rest,
        db.weeklySchedules.find?
          (weeklyScheduleMatch emp (civilYear date) (WeeklySchedule.getWeekNumber date)) = some ws ∧
        templateOf db ws = some t ∧ templateDaysFor db t (jsDow date) = td :: rest := by
  simp only [hasWeeklyTemplateDay]
  cases hws : db.weeklySchedules.find?
      (weeklyScheduleMatch emp (civilYear date) (WeeklySchedule.getWeekNumber date)) with
  | none => simp
  | some ws =>
    cases ht : templateOf db ws with
    | none => simp [ht]
    | some t =>
      cases hdays : templateDaysFor db t (jsDow date) with
      | nil => simp [ht, hdays]
      | cons td rest =>
        simp only [ht, hdays, Option.some_bind, List.head?_cons, Option.isSome_some, true_iff]
        exact ⟨ws, t, td, rest, rfl, ht, hdays⟩

/-- C1: the resolver selects exactly one source by strict priority — an active
daily exception wins; otherwise a weekly assignment whose non-null template has
a day for the weekday yields `weekly_template`; otherwise a fixed schedule
yields `regular_schedule`; otherwise `no_schedule`.  In particular, with all
four sources populated for a date, removing the winning source one at a time
falls through in exactly this order. -/
theorem getEffectiveScheduleForDate_priority_order (db : ScheduleDb) (emp : Nat) (date : Int) :
    (WeeklyScheduleService.getEffectiveScheduleForDate db emp date).type =
      (if hasActiveDailyException db emp date then "daily_exception"
       else if hasWeeklyTemplateDay db emp date then "weekly_template"
       else if hasRegularSchedule db emp (jsDow date) then "regular_schedule"
       else "no_schedule") := by
  cases hde : db.dailyExceptions.find? (dailyExceptionMatch emp date) with
  | some e =>
    rw [resolve_exception_eq db emp date e hde]
    simp [hasActiveDailyException, hde, exceptionResult]
  | none =>
    have hA : hasActiveDailyException db emp date = false := by
      simp [hasActiveDailyException, hde]
    rw [hA]
    cases hW : hasWeeklyTemplateDay db emp date with
    | true =>
      obtain ⟨ws, t, td, rest, hws, ht, hdays⟩ := (hasWeeklyTemplateDay_iff db emp date).mp hW
      rw [resolve_weekly_eq db emp date ws t td rest hde hws ht hdays]
      simp
    | false =>
      rw [resolve_fallback_eq db emp date hde hW]
      cases hrs : db.schedules.find?
          (fun s => s.employeeId == emp && s.dayOfWeek == jsDow date) with
      | some s => simp [resolveRegularOrNone, hasRegularSchedule, hrs]
      | none => simp [resolveRegularOrNone, hasRegularSchedule, hrs]

/-- C2 counterexample: the resolver selects a daily exception with
`isWorkingDay = false` yet returns the stored `startTime`/`endTime` (540 and
1020 minutes) unchanged instead of null — part_006 lines 27-40 copy the fields
verbatim. -/
theorem dayOffException_times_not_nulled_cex :
    (WeeklyScheduleService.getEffectiveScheduleForDate c2db 1
        (daysFromCivil 2025 3 10)).type = "daily_exception" ∧
    (WeeklyScheduleService.getEffectiveScheduleForDate c2db 1
        (daysFromCivil 2025 3 10)).isWorkingDay = false ∧
    (WeeklyScheduleService.getEffectiveScheduleForDate c2db 1
        (daysFromCivil 2025 3 10)).startTime = some 540 ∧
    (WeeklyScheduleService.getEffectiveScheduleForDate c2db 1
        (daysFromCivil 2025 3 10)).endTime = some 1020 := by
  rw [resolve_exception_eq c2db 1 (daysFromCivil 2025 3 10) c2row (by decide)]
  exact ⟨rfl, rfl, rfl, rfl⟩

/-- C2 (amended): when the resolver selects a daily exception, every working-day
and time field is taken directly from the exception row — `startTime`/`endTime`
are null exactly when the row stores null, regardless of `isWorkingDay`. -/
theorem getEffectiveScheduleForDate_exception_fields (db : ScheduleDb) (emp : Nat)
    (date : Int) (e : DailyExceptionRow)
    (h : db.dailyExceptions.find? (dailyExceptionMatch emp date) = some e) :
    WeeklyScheduleService.getEffectiveScheduleForDate db emp date =
      { type := "daily_exception", source := "daily_exception", data := .exception e,
        isWorkingDay := e.isWorkingDay, startTime := e.startTime, endTime := e.endTime,
        breakStartTime := e.breakStartTime, breakEndTime := e.breakEndTime,
        notes := e.notes, reason := e.reason } :=
  resolve_exception_eq db emp date e h

/-- Witness for the amended C2 at the concrete database `c2db`. -/
theorem getEffectiveScheduleForDate_exception_fields_witness :
    WeeklyScheduleService.getEffectiveScheduleForDate c2db 1 (daysFromCivil 2025 3 10) =
      { type := "daily_exception", source := "daily_exception", data := .exception c2row,
        isWorkingDay := false, startTime := some 540, endTime := some 1020,
        breakStartTime := none, breakEndTime := none, notes := none, reason := none } :=
  getEffectiveScheduleForDate_exception_fields c2db 1 (daysFromCivil 2025 3 10) c2row
    (by decide)

/-- C8: when no source matches — no active daily exception, no applicable
weekly template day, no fixed schedule — the resolver returns (rather than
raising) the degraded `no_schedule` result with `isWorkingDay = false`, all
time fields null and the notes "No hay horario definido para esta fecha". -/
theorem getEffectiveScheduleForDate_no_schedule (db : ScheduleDb) (emp : Nat) (date : Int)
    (h1 : hasActiveDailyException db emp date = false)
    (h2 : hasWeeklyTemplateDay db emp date = false)
    (h3 : hasRegularSchedule db emp (jsDow date) = false) :
    WeeklyScheduleService.getEffectiveScheduleForDate db emp date =
      { type := "no_schedule", source := "none", data := .none, isWorkingDay := false,
        startTime := none, endTime := none, breakStartTime := none, breakEndTime := none,
        notes := some "No hay horario definido para esta fecha" } := by
  cases hde : db.dailyExceptions.find? (dailyExceptionMatch emp date) with
  | some e => simp [hasActiveDailyException, hde] at h1
  | none =>
    rw [resolve_fallback_eq db emp date hde h2]
    cases hrs : db.schedules.find?
        (fun s => s.employeeId == emp && s.dayOfWeek == jsDow date) with
    | some s => simp [hasRegularSchedule, hrs] at h3
    | none => simp [resolveRegularOrNone, hrs]

/-- Witness for C8 at the empty database. -/
theorem getEffectiveScheduleForDate_no_schedule_witness :
    WeeklyScheduleService.getEffectiveScheduleForDate {} 1 (daysFromCivil 2025 3 10) =
      { type := "no_schedule", source := "none", data := .none, isWorkingDay := false,
        startTime := none, endTime := none, breakStartTime := none, breakEndTime := none,
        notes := some "No hay horario definido para esta fecha" } :=
  getEffectiveScheduleForDate_no_schedule {} 1 (daysFromCivil 2025 3 10) rfl rfl rfl

/-- C10: the weekly-assignment lookup of the resolver has no `isActive` filter
(part_006 lines 43-48), unlike the daily-exception lookup (lines 19-25): a
soft-deleted (`isActive = false`) assignment whose template has a day for the
weekday still wins and yields `weekly_template` instead of falling through to
the fixed schedule. -/
theorem resolver_inactive_weekly_assignment_wins (db : ScheduleDb) (emp : Nat) (date : Int)
    (ws : WeeklyScheduleRow) (t : ScheduleTemplateRow) (td : TemplateDayRow)
    (rest : List TemplateDayRow)
    (hde : db.dailyExceptions.find? (dailyExceptionMatch emp date) = none)
    (hws : db.weeklySchedules.find?
      (weeklyScheduleMatch emp (civilYear date) (WeeklySchedule.getWeekNumber date)) = some ws)
    (hInactive : ws.isActive = false)
    (ht : templateOf db ws = some t)
    (hdays : templateDaysFor db t (jsDow date) = td :: rest) :
    (WeeklyScheduleService.getEffectiveScheduleForDate db emp date).type = "weekly_template" ∧
    (WeeklyScheduleService.getEffectiveScheduleForDate db emp date).data = .weekly ws td := by
  rw [resolve_weekly_eq db emp date ws t td rest hde hws ht hdays]
  exact ⟨rfl, rfl⟩

/-- Witness for C10: on Monday 2025-03-10 the inactive assignment's template
day wins over the fixed schedule. -/
theorem resolver_inactive_weekly_assignment_wins_witness :
    (WeeklyScheduleService.getEffectiveScheduleForDate c10db 1
        (daysFromCivil 2025 3 10)).type = "weekly_template" ∧
    (WeeklyScheduleService.getEffectiveScheduleForDate c10db 1
        (daysFromCivil 2025 3 10)).data = .weekly c10ws c10td :=
  resolver_inactive_weekly_assignment_wins c10db 1 (daysFromCivil 2025 3 10) c10ws
    { id := 7, name := "T7" } c10td [] (by decide) (by decide) (by decide) (by decide)
    (by decide)

/-- C4 counterexample: two non-flexible breaks whose raw windows plainly
intersect (Lunch 13:00-14:00 and Coffee 13:30-13:45) are NOT reported as
conflicting by `hasFlexibilityConflict` — part_002 line 154 returns `false`
whenever neither break is flexible — although the claimed
intersection-after-widening predicate holds. -/
theorem hasFlexibilityConflict_nonflexible_cex :
    ScheduleBreak.hasFlexibilityConflict lunchBreak coffeeBreak = false ∧
    specWidenedOverlap lunchBreak coffeeBreak = true := by
  decide

/-- C4 (amended): `hasFlexibilityConflict a b` reports a conflict iff at least
one of the two breaks is flexible AND the windows, widened by
`flexibilityMinutes` on both ends for each flexible break, intersect; when
neither break is flexible it returns `false` even for intersecting raw
windows (plain overlap of non-flexible breaks is caught separately by
`validateBreaksForParent`). -/
theorem hasFlexibilityConflict_eq_flexible_and_overlap (a b : ScheduleBreakRow) :
    ScheduleBreak.hasFlexibilityConflict a b =
      ((a.isFlexible || b.isFlexible) && specWidenedOverlap a b) := by
  simp only [ScheduleBreak.hasFlexibilityConflict, specWidenedOverlap]
  cases ha : a.isFlexible <;> cases hb : b.isFlexible <;> simp

/-- C5: `calculateEffectiveWorkTime` returns null iff a work-time bound is
absent; otherwise `totalWorkMinutes = workEnd − workStart` and
`effectiveWorkMinutes = totalWorkMinutes − unpaidBreakMinutes` with no
clamping: a 09:00-10:00 window with a two-hour unpaid break yields
`effectiveWorkMinutes = -60` without raising. -/
theorem calculateEffectiveWorkTime_spec :
    (∀ e bs, ScheduleBreakService.calculateEffectiveWorkTime none e bs = none) ∧
    (∀ s bs, ScheduleBreakService.calculateEffectiveWorkTime s none bs = none) ∧
    (∀ ws we bs, ∃ r,
        ScheduleBreakService.calculateEffectiveWorkTime (some ws) (some we) bs = some r ∧
        r.totalWorkMinutes = (we : Int) - ws ∧
        r.effectiveWorkMinutes = r.totalWorkMinutes - r.unpaidBreakMinutes) ∧
    (∃ r, ScheduleBreakService.calculateEffectiveWorkTime (some 540) (some 600)
        [longUnpaidBreak] = some r ∧ r.effectiveWorkMinutes = -60) := by
  refine ⟨fun e bs => rfl, fun s bs => ?_, fun ws we bs => ⟨_, rfl, rfl, rfl⟩, ⟨_, rfl, ?_⟩⟩
  · cases s <;> rfl
  · decide

theorem overlapErrs_mem (i : Nat) (b : ScheduleBreakRow) :
    ∀ (rest : List ScheduleBreakRow) (j0 k : Nat) (hk : k < rest.length),
      rawOverlap b (rest.get ⟨k, hk⟩) = true →
      overlapErr i (j0 + k) b (rest.get ⟨k, hk⟩) ∈ overlapErrs i b j0 rest := by
  intro rest
  induction rest with
  | nil => intro j0 k hk; exact absurd hk (by simp)
  | cons o tail ih =>
    intro j0 k hk hov
    cases k with
    | zero =>
      simp only [List.get] at hov ⊢
      simp [overlapErrs, hov]
    | succ m =>
      simp only [List.get] at hov ⊢
      have h2 := ih (j0 + 1) m (Nat.lt_of_succ_lt_succ hk) hov
      simp only [overlapErrs, List.mem_append]
      right
      have : j0 + (m + 1) = j0 + 1 + m := by omega
      rw [this]
      exact h2

theorem validateAux_overlap_mem (ws we : Nat) :
    ∀ (l : List ScheduleBreakRow) (i0 i j : Nat) (hi : i < l.length) (hj : j < l.length),
      i < j → rawOverlap (l.get ⟨i, hi⟩) (l.get ⟨j, hj⟩) = true →
      overlapErr (i0 + i) (i0 + j) (l.get ⟨i, hi⟩) (l.get ⟨j, hj⟩) ∈
        validateAux ws we i0 l := by
  intro l
  induction l with
  | nil => intro i0 i j hi; exact absurd hi (by simp)
  | cons b rest ih =>
    intro i0 i j hi hj hij hov
    cases i with
    | zero =>
      cases j with
      | zero => exact absurd hij (lt_irrefl 0)
      | succ m =>
        simp only [List.get] at hov ⊢
        simp only [validateAux, List.mem_append]
        left; right
        have h2 := overlapErrs_mem i0 b rest (i0 + 1) m (Nat.lt_of_succ_lt_succ hj) hov
        have : i0 + (m + 1) = i0 + 1 + m := by omega
        rw [Nat.add_zero, this]
        exact h2
    | succ n =>
      cases j with
      | zero => exact absurd hij (by omega)
      | succ m =>
        simp only [List.get] at hov ⊢
        simp only [validateAux, List.mem_append]
        right
        have h2 := ih (i0 + 1) n m (Nat.lt_of_succ_lt_succ hi)
          (Nat.lt_of_succ_lt_succ hj) (by omega) hov
        have hn : i0 + (n + 1) = i0 + 1 + n := by omega
        have hm : i0 + (m + 1) = i0 + 1 + m := by omega
        rw [hn, hm]
        exact h2

theorem validateAux_outside_mem (ws we : Nat) :
    ∀ (l : List ScheduleBreakRow) (i0 i : Nat) (hi : i < l.length),
      ((l.get ⟨i, hi⟩).startTime < ws ∨ (l.get ⟨i, hi⟩).endTime > we) →
      outsideErr (i0 + i) (l.get ⟨i, hi⟩) ws we ∈ validateAux ws we i0 l := by
  intro l
  induction l with
  | nil => intro i0 i hi; exact absurd hi (by simp)
  | cons b rest ih =>
    intro i0 i hi hcond
    cases i with
    | zero =>
      simp only [List.get] at hcond ⊢
      simp only [validateAux, List.mem_append]
      left; left; left
      rw [if_pos hcond]
      simp
    | succ n =>
      simp only [List.get] at hcond ⊢
      simp only [validateAux, List.mem_append]
      right
      have h2 := ih (i0 + 1) n (Nat.lt_of_succ_lt_succ hi) hcond
      have he : i0 + (n + 1) = i0 + 1 + n := by omega
      rw [he]
      exact h2

theorem validateAux_invalid_mem (ws we : Nat) :
    ∀ (l : List ScheduleBreakRow) (i0 i : Nat) (hi : i < l.length),
      (l.get ⟨i, hi⟩).startTime ≥ (l.get ⟨i, hi⟩).endTime →
      invalidRangeErr (i0 + i) (l.get ⟨i, hi⟩) ∈ validateAux ws we i0 l := by
  intro l
  induction l with
  | nil => intro i0 i hi; exact absurd hi (by simp)
  | cons b rest ih =>
    intro i0 i hi hcond
    cases i with
    | zero =>
      simp only [List.get] at hcond ⊢
      simp only [validateAux, List.mem_append]
      left; left; right
      rw [if_pos hcond]
      simp
    | succ n =>
      simp only [List.get] at hcond ⊢
      simp only [validateAux, List.mem_append]
      right
      have h2 := ih (i0 + 1) n (Nat.lt_of_succ_lt_succ hi) hcond
      have he : i0 + (n + 1) = i0 + 1 + n := by omega
      rw [he]
      exact h2

/-- C7: `validateBreaksForParent` always returns a structured result whose
`isValid` is true exactly when the accumulated `errors` list is empty; every
break lying outside the work window contributes its `outside_work_hours`
entry; every break whose start is not strictly before its end contributes its
`invalid_time_range` entry; every pair of an earlier and a later break whose
raw windows intersect contributes its `break_overlap` entry (with both indices
and both names); and on scenario D — Lunch 13:00-14:00 and Coffee 13:30-13:45
against work hours 09:00-17:00 — the result is `isValid = false` with exactly
one `break_overlap` error referencing both names. -/
theorem validateBreaksForParent_spec :
    (∀ pt pid bs ws we,
        (ScheduleBreak.validateBreaksForParent pt pid bs ws we).isValid = true ↔
          (ScheduleBreak.validateBreaksForParent pt pid bs ws we).errors = []) ∧
    (∀ pt pid (bs : List ScheduleBreakRow) ws we (i : Nat) (hi : i < bs.length),
        ((bs.get ⟨i, hi⟩).startTime < ws ∨ (bs.get ⟨i, hi⟩).endTime > we) →
        outsideErr i (bs.get ⟨i, hi⟩) ws we ∈
          (ScheduleBreak.validateBreaksForParent pt pid bs ws we).errors) ∧
    (∀ pt pid (bs : List ScheduleBreakRow) ws we (i : Nat) (hi : i < bs.length),
        (bs.get ⟨i, hi⟩).startTime ≥ (bs.get ⟨i, hi⟩).endTime →
        invalidRangeErr i (bs.get ⟨i, hi⟩) ∈
          (ScheduleBreak.validateBreaksForParent pt pid bs ws we).errors) ∧
    (∀ pt pid (bs : List ScheduleBreakRow) ws we (i j : Nat)
        (hi : i < bs.length) (hj : j < bs.length),
        i < j → rawOverlap (bs.get ⟨i, hi⟩) (bs.get ⟨j, hj⟩) = true →
        overlapErr i j (bs.get ⟨i, hi⟩) (bs.get ⟨j, hj⟩) ∈
          (ScheduleBreak.validateBreaksForParent pt pid bs ws we).errors) ∧
    (ScheduleBreak.validateBreaksForParent "schedule" "s1" [lunchBreak, coffeeBreak]
        540 1020 =
      { isValid := false, errors := [overlapErr 0 1 lunchBreak coffeeBreak] }) := by
  refine ⟨fun pt pid bs ws we => ?_, fun pt pid bs ws we i hi hcond => ?_,
    fun pt pid bs ws we i hi hcond => ?_,
    fun pt pid bs ws we i j hi hj hij hov => ?_, by decide⟩
  · simp [ScheduleBreak.validateBreaksForParent, List.length_eq_zero]
  · have h := validateAux_outside_mem ws we bs 0 i hi hcond
    simpa [ScheduleBreak.validateBreaksForParent] using h
  · have h := validateAux_invalid_mem ws we bs 0 i hi hcond
    simpa [ScheduleBreak.validateBreaksForParent] using h
  · have h := validateAux_overlap_mem ws we bs 0 i j hi hj hij hov
    simpa [ScheduleBreak.validateBreaksForParent] using h

/-- Witness for C7: against work hours 09:00-17:00, the 08:00-08:30 break at
index 0 yields its `outside_work_hours` entry and the backwards 14:00-13:00
break at index 1 yields its `invalid_time_range` entry, while the scenario-D
pair yields its `break_overlap` entry at indices 0 and 1. -/
theorem validateBreaksForParent_spec_witness :
    outsideErr 0 earlyBreak 540 1020 ∈
      (ScheduleBreak.validateBreaksForParent "schedule" "s2" [earlyBreak, backwardsBreak]
        540 1020).errors ∧
    invalidRangeErr 1 backwardsBreak ∈
      (ScheduleBreak.validateBreaksForParent "schedule" "s2" [earlyBreak, backwardsBreak]
        540 1020).errors ∧
    overlapErr 0 1 lunchBreak coffeeBreak ∈
      (ScheduleBreak.validateBreaksForParent "schedule" "s1" [lunchBreak, coffeeBreak]
        540 1020).errors :=
  ⟨validateBreaksForParent_spec.2.1 "schedule" "s2" [earlyBreak, backwardsBreak] 540 1020
      0 (by decide) (by decide),
   validateBreaksForParent_spec.2.2.1 "schedule" "s2" [earlyBreak, backwardsBreak] 540 1020
      1 (by decide) (by decide),
   validateBreaksForParent_spec.2.2.2.1 "schedule" "s1" [lunchBreak, coffeeBreak] 540 1020
      0 1 (by decide) (by decide) (by decide) (by decide)⟩

theorem updateBreaksForParentTx_snd (pending : List StoredBreak) (pt : String) (pid : Nat)
    (bs : List ScheduleBreakRow) (cb : Nat) (throws : Bool) :
    (updateBreaksForParentTx pending pt pid bs cb throws).2 = !throws := by
  cases throws <;> rfl

theorem rowsFor_append (sid : Nat) (a b : List StoredBreak) :
    rowsFor sid (a ++ b) = rowsFor sid a ++ rowsFor sid b := by
  simp [rowsFor, List.filter_append]

/-- Every row created by `bulkCreateAux` carries the given parent reference. -/
theorem bulkCreateAux_mem (pt : String) (pid cb : Nat) (bs : List ScheduleBreakRow) :
    ∀ i a, a ∈ bulkCreateAux pt pid cb i bs → a.parentType = pt ∧ a.parentId = pid := by
  induction bs with
  | nil => intro i a ha; exact absurd ha (by simp [bulkCreateAux])
  | cons b t ih =>
    intro i a ha
    rcases List.mem_cons.mp ha with h | h
    · subst h; exact ⟨rfl, rfl⟩
    · exact ih (i + 1) a h

theorem rowsFor_destroy_self (sid : Nat) (l : List StoredBreak) :
    rowsFor sid (l.filter fun r => !(r.parentType == "schedule" && r.parentId == sid)) = [] := by
  rw [rowsFor, List.filter_filter]
  apply List.filter_eq_nil_iff.mpr
  intro a _
  cases h : (a.parentType == "schedule" && a.parentId == sid) <;> simp [h]

theorem rowsFor_destroy_other (sid sid' : Nat) (h : sid ≠ sid') (l : List StoredBreak) :
    rowsFor sid (l.filter fun r => !(r.parentType == "schedule" && r.parentId == sid')) =
      rowsFor sid l := by
  rw [rowsFor, List.filter_filter, rowsFor]
  apply List.filter_congr
  intro a _
  cases h1 : (a.parentType == "schedule") <;> cases h2 : (a.parentId == sid) <;> simp [h1, h2]
  simp only [beq_iff_eq] at h2
  subst h2
  omega

theorem rowsFor_bulk_self (sid cb : Nat) (bs : List ScheduleBreakRow) (i : Nat) :
    rowsFor sid (bulkCreateAux "schedule" sid cb i bs) =
      bulkCreateAux "schedule" sid cb i bs := by
  apply List.filter_eq_self.mpr
  intro a ha
  obtain ⟨h1, h2⟩ := bulkCreateAux_mem "schedule" sid cb bs i a ha
  simp [h1, h2]

theorem rowsFor_bulk_other (sid sid' cb : Nat) (h : sid ≠ sid') (bs : List ScheduleBreakRow)
    (i : Nat) : rowsFor sid (bulkCreateAux "schedule" sid' cb i bs) = [] := by
  apply List.filter_eq_nil_iff.mpr
  intro a ha
  obtain ⟨h1, h2⟩ := bulkCreateAux_mem "schedule" sid' cb bs i a ha
  simp [h1, h2]
  omega

theorem rowsFor_updateTx_self (sid cb : Nat) (pending : List StoredBreak)
    (bs : List ScheduleBreakRow) (throws : Bool) :
    rowsFor sid (updateBreaksForParentTx pending "schedule" sid bs cb throws).1 =
      (if throws then [] else ScheduleBreak.bulkCreateForParent "schedule" sid bs cb) := by
  cases throws with
  | true => simpa [updateBreaksForParentTx] using rowsFor_destroy_self sid pending
  | false =>
    simp only [updateBreaksForParentTx, Bool.false_eq_true, if_false]
    rw [rowsFor_append, rowsFor_destroy_self]
    simpa [ScheduleBreak.bulkCreateForParent] using rowsFor_bulk_self sid cb bs 0

theorem rowsFor_updateTx_other (sid sid' cb : Nat) (h : sid ≠ sid')
    (pending : List StoredBreak) (bs : List ScheduleBreakRow) (throws : Bool) :
    rowsFor sid (updateBreaksForParentTx pending "schedule" sid' bs cb throws).1 =
      rowsFor sid pending := by
  cases throws with
  | true => simpa [updateBreaksForParentTx] using rowsFor_destroy_other sid sid' h pending
  | false =>
    simp only [updateBreaksForParentTx, Bool.false_eq_true, if_false]
    rw [rowsFor_append, rowsFor_destroy_other sid sid' h]
    simpa [ScheduleBreak.bulkCreateForParent] using rowsFor_bulk_other sid sid' cb h bs 0

theorem applyFold_rowsFor (db : BreaksDb) (cf : Nat → Bool)
    (tb : List StoredBreak) (cb : Nat) :
    ∀ (sids : List Nat) (pending : List StoredBreak) (results : List ApplyEntry) (sid : Nat),
      rowsFor sid (sids.foldl (applyStep db cf tb cb) (pending, results)).1 =
        (if sid ∈ sids ∧ db.schedules.contains sid = true then
          (if cf sid then []
           else ScheduleBreak.bulkCreateForParent "schedule" sid
             (tb.map templateBreakCopy) cb)
         else rowsFor sid pending) := by
  intro sids
  induction sids with
  | nil => intro pending results sid; simp
  | cons s rest ih =>
    intro pending results sid
    rw [List.foldl_cons]
    by_cases hc : db.schedules.contains s = true
    · have hstep : applyStep db cf tb cb (pending, results) s =
          ((updateBreaksForParentTx pending "schedule" s (tb.map templateBreakCopy) cb
              (cf s)).1,
           results ++ (if cf s then [createFailedEntry s]
             else [successEntry s (tb.map templateBreakCopy).length])) := by
        simp only [applyStep, hc, if_true, updateBreaksForParentTx_snd]
        cases hf : cf s <;> simp
      rw [hstep, ih]
      by_cases hsid : sid = s
      · subst hsid
        have hcm : sid ∈ db.schedules := by simpa using hc
        rw [rowsFor_updateTx_self]
        by_cases hmem : sid ∈ rest
        · simp [hmem, hc, hcm, List.mem_cons]
        · simp [hmem, hc, hcm, List.mem_cons]
      · rw [rowsFor_updateTx_other sid s cb hsid]
        simp [List.mem_cons, hsid]
    · have hcm : s ∉ db.schedules := by simpa using hc
      have hstep : applyStep db cf tb cb (pending, results) s =
          (pending, results ++ [notFoundEntry s]) := by
        simp [applyStep, hcm]
      rw [hstep, ih]
      by_cases hsid : sid = s
      · subst hsid
        have hcm : sid ∉ db.schedules := by simpa using hc
        simp [List.mem_cons, hc, hcm]
      · simp [List.mem_cons, hsid]

theorem applyFold_results (db : BreaksDb) (cf : Nat → Bool)
    (tb : List StoredBreak) (cb : Nat) :
    ∀ (sids : List Nat) (pending : List StoredBreak) (results : List ApplyEntry),
      (sids.foldl (applyStep db cf tb cb) (pending, results)).2 =
        results ++ sids.map (applyEntryFor db cf (tb.map templateBreakCopy).length) := by
  intro sids
  induction sids with
  | nil => intro pending results; simp
  | cons s rest ih =>
    intro pending results
    rw [List.foldl_cons]
    by_cases hc : db.schedules.contains s = true
    · have hstep : applyStep db cf tb cb (pending, results) s =
          ((updateBreaksForParentTx pending "schedule" s (tb.map templateBreakCopy) cb
              (cf s)).1,
           results ++ (if cf s then [createFailedEntry s]
             else [successEntry s (tb.map templateBreakCopy).length])) := by
        simp only [applyStep, hc, if_true, updateBreaksForParentTx_snd]
        cases hf : cf s <;> simp
      rw [hstep, ih]
      have hcm : s ∈ db.schedules := by simpa using hc
      cases hf : cf s <;> simp [applyEntryFor, hc, hcm, hf]
    · have hcm : s ∉ db.schedules := by simpa using hc
      have hstep : applyStep db cf tb cb (pending, results) s =
          (pending, results ++ [notFoundEntry s]) := by
        simp [applyStep, hcm]
      rw [hstep, ih]
      simp [applyEntryFor, hc, hcm]

/-- C6 (amended): `applyTemplateBreaksToSchedules` runs the whole schedule loop
inside ONE transaction created before the loop and committed after it (service
lines 140 and 208).  Per-schedule failures are caught, recorded in that
schedule's results entry and do not abort the iteration or undo other
schedules' buffered replacements — every existing non-faulted target ends with
exactly the template-derived break set and untargeted schedules are untouched —
but a faulted schedule's old break set has already been destroyed inside the
shared transaction and that destruction commits with everything else, so its
failure is not merely recorded. -/
theorem applyTemplateBreaks_per_schedule (createFails : Nat → Bool) (db : BreaksDb)
    (templateDayId : Nat) (scheduleIds : List Nat) (createdBy : Nat) (sid : Nat)
    (hne : (ScheduleBreak.findByParent db.rows "template_day" templateDayId).isEmpty
      = false) :
    (sid ∈ scheduleIds → db.schedules.contains sid = true →
      rowsFor sid (ScheduleBreakService.applyTemplateBreaksToSchedules createFails db
          templateDayId scheduleIds createdBy).1.rows =
        (if createFails sid then []
         else ScheduleBreak.bulkCreateForParent "schedule" sid
           ((ScheduleBreak.findByParent db.rows "template_day" templateDayId).map
             templateBreakCopy) createdBy)) ∧
    (sid ∉ scheduleIds →
      rowsFor sid (ScheduleBreakService.applyTemplateBreaksToSchedules createFails db
          templateDayId scheduleIds createdBy).1.rows = rowsFor sid db.rows) ∧
    (ScheduleBreakService.applyTemplateBreaksToSchedules createFails db templateDayId
        scheduleIds createdBy).2.results =
      scheduleIds.map (applyEntryFor db createFails
        ((ScheduleBreak.findByParent db.rows "template_day" templateDayId).map
          templateBreakCopy).length) := by
  simp only [ScheduleBreakService.applyTemplateBreaksToSchedules, hne, Bool.false_eq_true,
    if_false]
  refine ⟨fun hmem hcont => ?_, fun hmem => ?_, ?_⟩
  · have hcm : sid ∈ db.schedules := by simpa using hcont
    rw [applyFold_rowsFor]
    simp [hmem, hcont, hcm]
  · rw [applyFold_rowsFor]
    simp [hmem]
  · rw [applyFold_results]
    simp

/-- C6 counterexample: schedule 2's replacement fails and the failure is
recorded in its results entry, yet its stored break set is NOT left alone —
the delete half of the delete-then-recreate had already run inside the shared
outer transaction and commits, leaving schedule 2 with no break rows at all;
so a per-schedule failure is more than "only recorded". -/
theorem applyTemplateBreaks_failure_destroys_cex :
    rowsFor 2 c6db.rows = [c6old2] ∧
    rowsFor 2 (ScheduleBreakService.applyTemplateBreaksToSchedules c6fails c6db 7 [1, 2]
        9).1.rows = [] ∧
    (ScheduleBreakService.applyTemplateBreaksToSchedules c6fails c6db 7 [1, 2]
        9).2.results.filter (fun r => r.scheduleId == 2) = [createFailedEntry 2] := by
  decide

/-- Witness for the amended C6 at the concrete scenario: the non-faulted
schedule 1 ends with exactly the template-derived break set, and the
untargeted schedule 3 is untouched. -/
theorem applyTemplateBreaks_per_schedule_witness :
    (rowsFor 1 (ScheduleBreakService.applyTemplateBreaksToSchedules c6fails c6db 7 [1, 2]
        9).1.rows =
      (if c6fails 1 then []
       else ScheduleBreak.bulkCreateForParent "schedule" 1
         ((ScheduleBreak.findByParent c6db.rows "template_day" 7).map templateBreakCopy)
         9)) ∧
    rowsFor 3 (ScheduleBreakService.applyTemplateBreaksToSchedules c6fails c6db 7 [1, 2]
        9).1.rows = rowsFor 3 c6db.rows :=
  ⟨(applyTemplateBreaks_per_schedule c6fails c6db 7 [1, 2] 9 1 (by decide)).1
      (by decide) (by decide),
   (applyTemplateBreaks_per_schedule c6fails c6db 7 [1, 2] 9 3 (by decide)).2.1
      (by decide)⟩

theorem map_id_of_mem {α : Type} (l : List α) (f : α → α) (h : ∀ a ∈ l, f a = a) :
    l.map f = l := by
  induction l with
  | nil => rfl
  | cons a t ih => simp [h a (by simp), ih fun b hb => h b (by simp [hb])]

theorem applyValues_idem (r : WeeklyScheduleRow) (v : WeeklyUpsertValues) :
    applyValues (applyValues r v) v = applyValues r v := by
  simp [applyValues]

theorem applyValues_keyMatch (r : WeeklyScheduleRow) (v : WeeklyUpsertValues) :
    weeklyKeyMatch v (applyValues r v) = true := by
  simp [weeklyKeyMatch, applyValues]

theorem newRow_keyMatch (v : WeeklyUpsertValues) :
    weeklyKeyMatch v (newRowFromValues v) = true := by
  simp [weeklyKeyMatch, newRowFromValues]

theorem applyValues_newRow (v : WeeklyUpsertValues) :
    applyValues (newRowFromValues v) v = newRowFromValues v := by
  simp [applyValues, newRowFromValues]

/-- Two upsert payloads for different week numbers never match the same row. -/
theorem keyMatch_ne_week (v v' : WeeklyUpsertValues) (r : WeeklyScheduleRow)
    (hd : v.weekNumber ≠ v'.weekNumber) (h : weeklyKeyMatch v r = true) :
    weeklyKeyMatch v' r = false := by
  simp only [weeklyKeyMatch, Bool.and_eq_true, beq_iff_eq] at h ⊢
  cases h' : decide (r.weekNumber = v'.weekNumber) <;> simp_all

theorem upsert_establishes (rows : List WeeklyScheduleRow) (v : WeeklyUpsertValues) :
    keyFixed (WeeklySchedule.upsert rows v).1 v := by
  unfold WeeklySchedule.upsert
  by_cases h : rows.any (weeklyKeyMatch v) = true
  · simp only [h, if_true]
    constructor
    · obtain ⟨r, hr, hm⟩ := List.any_eq_true.mp h
      exact List.any_eq_true.mpr
        ⟨applyValues r v, List.mem_map.mpr ⟨r, hr, by simp [hm]⟩, applyValues_keyMatch r v⟩
    · intro r hr hm
      obtain ⟨r0, hr0, rfl⟩ := List.mem_map.mp hr
      by_cases h0 : weeklyKeyMatch v r0 = true
      · simp [h0, applyValues_idem]
      · simp [h0] at hm
  · simp only [h, if_false]
    constructor
    · exact List.any_eq_true.mpr ⟨newRowFromValues v, by simp, newRow_keyMatch v⟩
    · intro r hr hm
      rcases List.mem_append.mp hr with h1 | h1
      · exact absurd (List.any_eq_true.mpr ⟨r, h1, hm⟩) h
      · have : r = newRowFromValues v := by simpa using h1
        subst this
        exact applyValues_newRow v

theorem upsert_preserves_ne_week (rows : List WeeklyScheduleRow) (v v' : WeeklyUpsertValues)
    (hd : v.weekNumber ≠ v'.weekNumber) (h : keyFixed rows v) :
    keyFixed (WeeklySchedule.upsert rows v').1 v := by
  obtain ⟨hany, hfix⟩ := h
  unfold WeeklySchedule.upsert
  by_cases h' : rows.any (weeklyKeyMatch v') = true
  · simp only [h', if_true]
    constructor
    · obtain ⟨r, hr, hm⟩ := List.any_eq_true.mp hany
      have hno : weeklyKeyMatch v' r = false :=
        keyMatch_ne_week v v' r hd hm
      exact List.any_eq_true.mpr ⟨r, List.mem_map.mpr ⟨r, hr, by simp [hno]⟩, hm⟩
    · intro r hr hm
      obtain ⟨r0, hr0, rfl⟩ := List.mem_map.mp hr
      by_cases h0 : weeklyKeyMatch v' r0 = true
      · exfalso
        simp only [h0, if_true] at hm
        have := keyMatch_ne_week v' v (applyValues r0 v')
          (fun e => hd e.symm) (applyValues_keyMatch r0 v')
        simp [this] at hm
      · simp only [h0, Bool.false_eq_true, if_false] at hm ⊢
        exact hfix r0 hr0 hm
  · simp only [h', if_false]
    constructor
    · rcases List.any_eq_true.mp hany with ⟨r, hr, hm⟩
      exact List.any_eq_true.mpr ⟨r, List.mem_append_left _ hr, hm⟩
    · intro r hr hm
      rcases List.mem_append.mp hr with h1 | h1
      · exact hfix r h1 hm
      · exfalso
        have : r = newRowFromValues v' := by simpa using h1
        subst this
        have := keyMatch_ne_week v' v (newRowFromValues v')
          (fun e => hd e.symm) (newRow_keyMatch v')
        simp [this] at hm

theorem upsert_of_keyFixed (rows : List WeeklyScheduleRow) (v : WeeklyUpsertValues)
    (h : keyFixed rows v) : WeeklySchedule.upsert rows v = (rows, false) := by
  obtain ⟨hany, hfix⟩ := h
  unfold WeeklySchedule.upsert
  simp only [hany, if_true]
  rw [map_id_of_mem]
  intro r hr
  by_cases hm : weeklyKeyMatch v r = true
  · simp [hm, hfix r hr hm]
  · simp [hm]

theorem planStep_excluded (tname : String) (emp : Nat) (yr : Int) (tid cb : Nat)
    (opts : PlanOptions) (rows : List WeeklyScheduleRow) (res : List WeekResult) (w : Int)
    (hex : opts.excludeWeeks.contains w = true) :
    planStep tname emp yr tid cb opts (rows, res) w = (rows, res) := by
  have hm : w ∈ opts.excludeWeeks := by simpa using hex
  simp [planStep, hex, hm]

theorem planStep_eq (tname : String) (emp : Nat) (yr : Int) (tid cb : Nat)
    (opts : PlanOptions) (hskip : opts.skipExistingWeeks = false)
    (rows : List WeeklyScheduleRow) (res : List WeekResult) (w : Int)
    (hex : opts.excludeWeeks.contains w = false) :
    planStep tname emp yr tid cb opts (rows, res) w =
      ((WeeklySchedule.upsert rows (planValues tname emp yr tid cb opts w)).1,
       res ++ [⟨w,
         (if (WeeklySchedule.upsert rows (planValues tname emp yr tid cb opts w)).2
          then "created" else "updated"),
         (planValues tname emp yr tid cb opts w).startDate,
         (planValues tname emp yr tid cb opts w).endDate⟩]) := by
  have hm : w ∉ opts.excludeWeeks := by simpa using hex
  simp [planStep, hex, hm, hskip]

theorem planFold_preserves (tname : String) (emp : Nat) (yr : Int) (tid cb : Nat)
    (opts : PlanOptions) (hskip : opts.skipExistingWeeks = false) :
    ∀ (ws : List Int) (rows : List WeeklyScheduleRow) (res : List WeekResult) (w : Int),
      keyFixed rows (planValues tname emp yr tid cb opts w) →
      keyFixed ((ws.foldl (planStep tname emp yr tid cb opts) (rows, res)).1)
        (planValues tname emp yr tid cb opts w) := by
  intro ws
  induction ws with
  | nil => intro rows res w h; simpa using h
  | cons s rest ih =>
    intro rows res w h
    rw [List.foldl_cons]
    by_cases hex : opts.excludeWeeks.contains s = true
    · rw [planStep_excluded tname emp yr tid cb opts rows res s hex]
      exact ih rows res w h
    · rw [planStep_eq tname emp yr tid cb opts hskip rows res s (by simpa using hex)]
      apply ih
      by_cases hsw : s = w
      · subst hsw
        exact upsert_establishes rows (planValues tname emp yr tid cb opts s)
      · exact upsert_preserves_ne_week rows
          (planValues tname emp yr tid cb opts w)
          (planValues tname emp yr tid cb opts s)
          (fun e => hsw ((by simpa [planValues] using e : w = s)).symm) h

theorem planFold_keyFixed (tname : String) (emp : Nat) (yr : Int) (tid cb : Nat)
    (opts : PlanOptions) (hskip : opts.skipExistingWeeks = false) :
    ∀ (ws : List Int) (rows : List WeeklyScheduleRow) (res : List WeekResult) (w : Int),
      w ∈ ws → opts.excludeWeeks.contains w = false →
      keyFixed ((ws.foldl (planStep tname emp yr tid cb opts) (rows, res)).1)
        (planValues tname emp yr tid cb opts w) := by
  intro ws
  induction ws with
  | nil => intro rows res w hw; exact absurd hw (by simp)
  | cons s rest ih =>
    intro rows res w hw hex
    rw [List.foldl_cons]
    rcases List.mem_cons.mp hw with rfl | hw'
    · rw [planStep_eq tname emp yr tid cb opts hskip rows res w hex]
      exact planFold_preserves tname emp yr tid cb opts hskip rest _ _ w
        (upsert_establishes rows (planValues tname emp yr tid cb opts w))
    · by_cases hex2 : opts.excludeWeeks.contains s = true
      · rw [planStep_excluded tname emp yr tid cb opts rows res s hex2]
        exact ih rows res w hw' hex
      · rw [planStep_eq tname emp yr tid cb opts hskip rows res s (by simpa using hex2)]
        exact ih _ _ w hw' hex

theorem planFold_snd_pass (tname : String) (emp : Nat) (yr : Int) (tid cb : Nat)
    (opts : PlanOptions) (hskip : opts.skipExistingWeeks = false) :
    ∀ (ws : List Int) (rows : List WeeklyScheduleRow) (res : List WeekResult),
      (∀ w ∈ ws, opts.excludeWeeks.contains w = false →
        keyFixed rows (planValues tname emp yr tid cb opts w)) →
      ws.foldl (planStep tname emp yr tid cb opts) (rows, res) =
        (rows, res ++ ws.filterMap fun w =>
          if opts.excludeWeeks.contains w then none
          else some ⟨w, "updated", (planValues tname emp yr tid cb opts w).startDate,
            (planValues tname emp yr tid cb opts w).endDate⟩) := by
  intro ws
  induction ws with
  | nil => intro rows res h; simp
  | cons s rest ih =>
    intro rows res h
    rw [List.foldl_cons]
    by_cases hex : opts.excludeWeeks.contains s = true
    · have hm : s ∈ opts.excludeWeeks := by simpa using hex
      rw [planStep_excluded tname emp yr tid cb opts rows res s hex,
        ih rows res fun w hw hx => h w (by simp [hw]) hx]
      simp [List.filterMap_cons, hex, hm]
    · have hm : s ∉ opts.excludeWeeks := by simpa using hex
      have hkf := h s (by simp) (by simpa using hex)
      rw [planStep_eq tname emp yr tid cb opts hskip rows res s (by simpa using hex),
        upsert_of_keyFixed rows (planValues tname emp yr tid cb opts s) hkf,
        ih rows _ fun w hw hx => h w (by simp [hw]) hx]
      simp [List.filterMap_cons, hex, hm]

/-- C9: with `skipExistingWeeks = false`, `planifyYearWithTemplate` is
idempotent on the assignment table — a second call with identical arguments
leaves the weekly-schedule rows exactly as the first call left them, updating
the existing rows keyed by (employeeId, year, weekNumber) instead of creating
duplicates, and every entry of its results reports the action "updated". -/
theorem planifyYearWithTemplate_idempotent (db : ScheduleDb) (emp : Nat) (yr : Int)
    (tid cb : Nat) (opts : PlanOptions) (db1 : ScheduleDb) (out1 : PlanResult)
    (hskip : opts.skipExistingWeeks = false)
    (h1 : WeeklyScheduleService.planifyYearWithTemplate db emp yr tid cb opts =
      .ok (db1, out1)) :
    ∃ out2,
      WeeklyScheduleService.planifyYearWithTemplate db1 emp yr tid cb opts =
        .ok (db1, out2) ∧
      ∀ r ∈ out2.results, r.action = "updated" := by
  unfold WeeklyScheduleService.planifyYearWithTemplate at h1 ⊢
  cases hT : db.scheduleTemplates.find? (fun t => t.id == tid && t.isActive) with
  | none => rw [hT] at h1; exact absurd h1 (by simp)
  | some template =>
    rw [hT] at h1
    have hpair := Except.ok.inj h1
    have hdb1 : db1 = (planifyCore db template emp yr tid cb opts).1 :=
      (congrArg Prod.fst hpair).symm
    have hT2 : db1.scheduleTemplates.find? (fun t => t.id == tid && t.isActive) =
        some template := by
      rw [hdb1]; exact hT
    simp only [hT2]
    have hsnd := planFold_snd_pass template.name emp yr tid cb opts hskip
      (opts.specificWeeks.getD
        ((List.range (WeeklySchedule.getWeeksInYear yr).toNat).map fun i => (i : Int) + 1))
      ((opts.specificWeeks.getD
          ((List.range (WeeklySchedule.getWeeksInYear yr).toNat).map
            fun i => (i : Int) + 1)).foldl
        (planStep template.name emp yr tid cb opts) (db.weeklySchedules, [])).1
      []
      (fun w hw hx => planFold_keyFixed template.name emp yr tid cb opts hskip _
        db.weeklySchedules [] w hw hx)
    have hfst : (planifyCore db1 template emp yr tid cb opts).1 = db1 := by
      rw [hdb1]
      unfold planifyCore
      dsimp only
      rw [hsnd]
    refine ⟨(planifyCore db1 template emp yr tid cb opts).2, ?_, ?_⟩
    · exact congrArg Except.ok (Prod.ext hfst rfl)
    · intro r hr
      rw [hdb1] at hr
      unfold planifyCore at hr
      dsimp only at hr
      rw [hsnd] at hr
      simp only [List.nil_append] at hr
      obtain ⟨w, _, hf⟩ := List.mem_filterMap.mp hr
      by_cases hx : opts.excludeWeeks.contains w = true
      · rw [if_pos hx] at hf; cases hf
      · rw [if_neg hx] at hf
        cases hf
        rfl

/-- Witness for C9: planning weeks 1-2 of 2025 twice with identical arguments
leaves the rows of the first call untouched and reports only "updated". -/
theorem planifyYearWithTemplate_idempotent_witness :
    ∃ db1 out1 out2,
      WeeklyScheduleService.planifyYearWithTemplate c9db 1 2025 1 9 c9opts =
        .ok (db1, out1) ∧
      WeeklyScheduleService.planifyYearWithTemplate db1 1 2025 1 9 c9opts =
        .ok (db1, out2) ∧
      ∀ r ∈ out2.results, r.action = "updated" := by
  obtain ⟨out2, h2, hupd⟩ :=
    planifyYearWithTemplate_idempotent c9db 1 2025 1 9 c9opts _ _ rfl rfl
  exact ⟨_, _, out2, rfl, h2, hupd⟩
